import Mathlib

/-
Verification of the xdp-tutorial loader and stats reporter
(src/unnamed/part_000: the XDP loader with map reuse;
src/basic04-pinning-maps/xdp_stats.c: the pinned-map stats reporter).

The C code is shallowly embedded: every effectful primitive (filesystem
access, bpf syscalls, the monotonic clock) is an explicit parameter, and
each C function becomes a pure Lean function over those parameters.
Machine integers are Nat with explicit reduction modulo 2 to the 64 where
the C code can wrap; doubles produced by exact integer-to-double
conversion and division are modeled as rationals (for the quantities
involved, the double is zero exactly when the rational is).
-/

/-- Modelled from the spec: exit codes come from the repository's
common_defines.h, which is not among the provided sources. The spec
requires 0 for success and distinct nonzero codes for the failure
classes; the values below follow that convention. -/
def EXIT_OK : Nat := 0

/-- Modelled from the spec: generic failure exit code (see EXIT_OK). -/
def EXIT_FAIL : Nat := 1

/-- Modelled from the spec: exit code for bad or missing CLI input
(see EXIT_OK). -/
def EXIT_FAIL_OPTION : Nat := 2

/-- Modelled from the spec: exit code for bpf-level failures
(see EXIT_OK). -/
def EXIT_FAIL_BPF : Nat := 40

/-- Modelled from the spec: the kernel map-type constant for a singleton
array table; the constant lives in external kernel headers, only its
distinctness from the per-cpu constant matters here. -/
def BPF_MAP_TYPE_ARRAY : Nat := 2

/-- Modelled from the spec: the kernel map-type constant for a per-cpu
replicated array table (see BPF_MAP_TYPE_ARRAY). -/
def BPF_MAP_TYPE_PERCPU_ARRAY : Nat := 6

/-- Modelled from the spec: XDP_ACTION_MAX is defined in the repository's
common_kern_user.h, which is not among the provided sources; it is the
fixed cardinality of the outcome-code enumeration (the five XDP verdicts),
used as the statistics table's entry count. -/
abbrev XDP_ACTION_MAX : Nat := 5

/-- NANOSEC_PER_SEC from xdp_stats.c. -/
def NANOSEC_PER_SEC : Nat := 1000000000

/-- The modulus of the C type __u64. -/
def U64_MOD : Nat := 2 ^ 64

/-- Wrapping subtraction of two __u64 values, as performed by C
unsigned arithmetic. -/
def u64sub (a b : Nat) : Nat := (((a : Int) - (b : Int)) % ((2 : Int) ^ 64)).toNat

/-- struct datarec from common_kern_user.h as used by xdp_stats.c:
an accumulating packet count and byte count (both __u64). -/
structure datarec where
  rx_packets : Nat
  rx_bytes : Nat
deriving DecidableEq, Repr

/-- struct record from xdp_stats.c: a per-outcome counter record with
the timestamp (nanoseconds, __u64) at which it was read. -/
structure record where
  timestamp : Nat
  total : datarec
deriving DecidableEq, Repr

/-- struct stats_record from xdp_stats.c: one record per XDP action. -/
structure stats_record where
  stats : Fin XDP_ACTION_MAX → record

instance : DecidableEq stats_record :=
  fun a b =>
    decidable_of_iff (a.stats = b.stats) (by cases a; cases b; simp)

/-- calc_period from xdp_stats.c: the __u64 difference of the two
timestamps, converted to seconds (a double, modeled as a rational;
the double is zero exactly when the __u64 difference is zero). -/
def calc_period (r p : record) : ℚ :=
  let period := u64sub r.timestamp p.timestamp
  if period > 0 then (period : ℚ) / (NANOSEC_PER_SEC : ℚ) else 0

/-- One line of the reporter's standard output, abstracting the
formatted text of xdp_stats.c: the header block, one row per printed
XDP action, and the trailing blank line. -/
inductive OutputLine where
  | header : OutputLine
  | row (action : Nat) (packets : Nat) (pps : ℚ) (kbytes : Nat) (mbps : ℚ)
      (period : ℚ) : OutputLine
  | blank : OutputLine
deriving DecidableEq

/-- True on a printed statistics row. -/
def isRow : OutputLine → Bool
  | OutputLine.row _ _ _ _ _ _ => true
  | _ => false

/-- True on a printed statistics row whose period field is zero. -/
def rowPeriodZero : OutputLine → Bool
  | OutputLine.row _ _ _ _ _ per => per == 0
  | _ => false

/-- True on a printed statistics row for the given action code. -/
def rowForAction (a : Nat) : OutputLine → Bool
  | OutputLine.row act _ _ _ _ _ => act == a
  | _ => false

/-- The per-action loop of stats_print from xdp_stats.c, iterating over
the remaining action indices in order. For each action it computes the
period; if the period is zero the C code returns from stats_print at
once (no row for this or any later action, and no trailing blank line),
otherwise it prints one row and continues. The C guard compares the
double returned by calc_period against zero; that comparison succeeds
exactly when the __u64 timestamp difference is zero (theorem
calc_period_eq_zero_iff below), and the embedding uses the integer form
of the same test so that the function evaluates by kernel reduction.
The row carries exactly the printed quantities: cumulative packets,
packet rate, cumulative kilobytes, megabit rate, and the period. -/
def statsPrintRows (cur prev : stats_record) : List (Fin XDP_ACTION_MAX) → List OutputLine
  | [] => [OutputLine.blank]
  | i :: rest =>
    let r_i := cur.stats i
    let p_i := prev.stats i
    let period := calc_period r_i p_i
    if u64sub r_i.timestamp p_i.timestamp = 0 then []
    else
      let packets := u64sub r_i.total.rx_packets p_i.total.rx_packets
      let bytes := u64sub r_i.total.rx_bytes p_i.total.rx_bytes
      OutputLine.row i.val r_i.total.rx_packets ((packets : ℚ) / period)
          (r_i.total.rx_bytes / 1000)
          (((bytes * 8 % U64_MOD : Nat) : ℚ) / period / 1000000)
          period
        :: statsPrintRows cur prev rest

/-- stats_print from xdp_stats.c: prints the header unconditionally,
then one row per action until the first zero period (which returns
early). -/
def stats_print (cur prev : stats_record) : List OutputLine :=
  OutputLine.header :: statsPrintRows cur prev (List.finRange XDP_ACTION_MAX)

/-- map_get_value_array from xdp_stats.c (BPF_MAP_TYPE_ARRAY case).
The lookup parameter is the outcome of the bpf_map_lookup_elem syscall;
the value parameter is the current contents of the caller's stack
variable, which the C function leaves untouched on lookup failure
(it only prints a warning, reported by the returned flag). -/
def map_get_value_array (lookup : Option datarec) (value : datarec) : datarec × Bool :=
  match lookup with
  | some v => (v, false)
  | none => (value, true)

/-- map_get_value_percpu_array from xdp_stats.c (BPF_MAP_TYPE_PERCPU_ARRAY
case). The lookup outcome is one datarec per possible CPU; on success the
per-CPU values are summed into the caller's variable with __u64
arithmetic, on failure the function warns and returns early, leaving the
caller's variable untouched. -/
def map_get_value_percpu_array (lookup : Option (List datarec)) (value : datarec) :
    datarec × Bool :=
  match lookup with
  | none => (value, true)
  | some vs =>
      ({ rx_packets := vs.foldl (fun acc v => (acc + v.rx_packets) % U64_MOD) 0,
         rx_bytes := vs.foldl (fun acc v => (acc + v.rx_bytes) % U64_MOD) 0 }, false)

/-- map_collect from xdp_stats.c. The C function declares an
uninitialized stack variable (struct datarec value), records the clock
(the now parameter) into the record's timestamp before the lookup,
dispatches on the map type, and then unconditionally copies the stack
variable into the record's totals. The uninit parameter models the
indeterminate initial contents of that stack variable, which reach the
record whenever the lookup fails. The returned flag is the C return
value (false only for an unknown map type). -/
def map_collect (map_type : Nat) (lookupA : Option datarec)
    (lookupP : Option (List datarec)) (uninit : datarec) (now : Nat)
    (r : record) : record × Bool :=
  let r1 : record := { r with timestamp := now }
  if map_type = BPF_MAP_TYPE_ARRAY then
    ({ r1 with total := (map_get_value_array lookupA uninit).1 }, true)
  else if map_type = BPF_MAP_TYPE_PERCPU_ARRAY then
    ({ r1 with total := (map_get_value_percpu_array lookupP uninit).1 }, true)
  else
    (r1, false)

/-- The environment of one collection pass of xdp_stats.c: for each key,
the outcome of the array lookup, the outcome of the per-cpu lookup, and
the indeterminate initial contents of the stack variable of that key's
map_collect call. -/
structure MapEnv where
  lookupA : Nat → Option datarec
  lookupP : Nat → Option (List datarec)
  uninit : Nat → datarec

/-- stats_collect from xdp_stats.c: one map_collect call per key
0..XDP_ACTION_MAX-1, in increasing key order. The clock parameter gives
the successive readings of the monotonic clock: since gettime is called
exactly once per key, in key order, the record of key k receives the
k-th reading of the pass. -/
def stats_collect (env : MapEnv) (clock : Nat → Nat) (map_type : Nat)
    (s : stats_record) : stats_record :=
  ⟨fun k =>
    (map_collect map_type (env.lookupA k.val) (env.lookupP k.val)
      (env.uninit k.val) (clock k.val) (s.stats k)).1⟩

/-- struct bpf_map_info as used by the reporter: the generation
identifier (id), the table kind (type), and the shape fields checked
against the expected shape. -/
structure bpf_map_info where
  id : Nat
  type : Nat
  key_size : Nat
  value_size : Nat
  max_entries : Nat
deriving DecidableEq, Repr

/-- Modelled from the spec: error code for a key-size or value-size
mismatch during shape validation; the spec requires it to be nonzero and
distinct from the entry-count mismatch code. -/
def SHAPE_SIZE_MISMATCH : Nat := 10

/-- Modelled from the spec: error code for an entry-count mismatch
during shape validation (see SHAPE_SIZE_MISMATCH). -/
def SHAPE_ENTRIES_MISMATCH : Nat := 11

/-- Modelled from the spec: check_map_fd_info lives in the repository's
common helpers, which are not among the provided sources. Per the spec,
a consumer must verify key size, value size, and entry count exactly
match the expected shape before trusting the table, and shape validation
rejects an entry-count mismatch with a distinct error from a
key/value-size mismatch; on a full match it reports success. -/
def check_map_fd_info (info expect : bpf_map_info) : Nat :=
  if info.key_size ≠ expect.key_size then SHAPE_SIZE_MISMATCH
  else if info.value_size ≠ expect.value_size then SHAPE_SIZE_MISMATCH
  else if info.max_entries ≠ expect.max_entries then SHAPE_ENTRIES_MISMATCH
  else EXIT_OK

/-- open_check_bpf_map_file from xdp_stats.c. The openResult parameter
is the outcome of open_bpf_map_file at the pin path: none when the open
fails (no valid fd), some info when it succeeds and fills the map info.
Returns the error code together with the info made available to the
caller. On open failure it returns EXIT_FAIL_BPF; on a shape-check
failure it returns the nonzero code of check_map_fd_info; otherwise
EXIT_OK. -/
def open_check_bpf_map_file (openResult : Option bpf_map_info)
    (expect : bpf_map_info) : Nat × Option bpf_map_info :=
  match openResult with
  | none => (EXIT_FAIL_BPF, none)
  | some info =>
    let err := check_map_fd_info info expect
    if err ≠ EXIT_OK then (err, some info) else (EXIT_OK, some info)

/-- The retry condition of the re-open loop in stats_poll_map_reload:
the C condition is (err == EXIT_FAIL_BPF || err != EXIT_OK). -/
def reopen_retry_cond (err : Nat) : Bool :=
  err == EXIT_FAIL_BPF || err != EXIT_OK

/-- The re-open retry loop of stats_poll_map_reload, step-indexed: the
attempts parameter gives the outcome of the k-th open attempt, and
reopen_spins attempts expect n is true exactly when the loop is still
retrying after consuming the first n attempts (each of the first n
attempts satisfied the retry condition, so none of them left the
loop). -/
def reopen_spins (attempts : Nat → Option bpf_map_info) (expect : bpf_map_info) :
    Nat → Bool
  | 0 => true
  | n + 1 =>
    reopen_spins attempts expect n &&
      reopen_retry_cond (open_check_bpf_map_file (attempts n) expect).1

/-- The startup check of the reporter's main (xdp_stats.c): main calls
open_check_bpf_map_file once and returns its error code (terminating the
process) whenever it is not EXIT_OK. This predicate is true exactly when
that startup path is fatal. -/
def reporter_startup_fatal (openResult : Option bpf_map_info)
    (expect : bpf_map_info) : Bool :=
  (open_check_bpf_map_file openResult expect).1 != EXIT_OK

/-- The expected map shape set by the reporter's main: key size of __u32,
value size of struct datarec (two __u64 fields), XDP_ACTION_MAX
entries. -/
def map_expect_shape : bpf_map_info :=
  { id := 0, type := 0, key_size := 4, value_size := 16,
    max_entries := XDP_ACTION_MAX }

/-- The identifying fields of the freshly re-opened table used by the
poll loop: the generation identifier and the table kind. -/
structure MapInfo where
  id : Nat
  type : Nat
deriving DecidableEq, Repr

/-- The loop-carried state of stats_poll_map_reload: the recorded
generation identifier, the table kind used for collection, and the
accumulated statistics record. -/
structure LoopState where
  map_id : Nat
  map_type : Nat
  record : stats_record

/-- The environment of one iteration of the poll loop of
stats_poll_map_reload, after the re-open retry loop has succeeded:
the info of the newly opened table, and the lookup environments and
clock readings of the (up to two) collection passes of the iteration. -/
structure IterEnv where
  newInfo : MapInfo
  reloadEnv : MapEnv
  reloadClock : Nat → Nat
  collectEnv : MapEnv
  collectClock : Nat → Nat

/-- One iteration of the while loop of stats_poll_map_reload, from
after the (eventually successful) re-open to the end of the iteration.
The C code records the new generation identifier; if it differs from
the previous one it warns, adopts the new table kind, and takes a
fresh baseline collection (then settles briefly); in either case it
then falls through: copies the current record to prev, collects a new
record and calls stats_print. Returns the new loop state and the lines
printed by this iteration. -/
def loop_iteration (st : LoopState) (env : IterEnv) : LoopState × List OutputLine :=
  let map_id := env.newInfo.id
  if st.map_id ≠ map_id then
    let map_type := env.newInfo.type
    let base := stats_collect env.reloadEnv env.reloadClock map_type st.record
    let record2 := stats_collect env.collectEnv env.collectClock map_type base
    ({ map_id := map_id, map_type := map_type, record := record2 },
      stats_print record2 base)
  else
    let record2 := stats_collect env.collectEnv env.collectClock st.map_type st.record
    ({ map_id := map_id, map_type := st.map_type, record := record2 },
      stats_print record2 st.record)

/-- The environment of reuse_pinned_map (loader source): whether the
pin-path construction succeeds (snprintf), whether an object exists at
the pin path (access), whether opening it succeeds (bpf_obj_get),
whether the table name is found among the program's declared tables
(bpf_object__find_map_by_name), and whether swapping the declared
table's backing fd onto the pinned object succeeds
(bpf_map__reuse_fd). -/
structure ReuseEnv where
  path_ok : Bool
  pin_exists : Bool
  open_ok : Bool
  find_map : Bool
  reuse_fd_ok : Bool
deriving DecidableEq, Repr

/-- reuse_pinned_map from the loader source. Returns -1 (fatal) on
path-construction failure, on name-not-found, and on reuse-fd failure;
returns 0 (no reuse, continue normally) when the pin path is absent or
the open fails; returns 1 when the map was reused. -/
def reuse_pinned_map (env : ReuseEnv) : Int :=
  if env.path_ok = false then -1
  else if env.pin_exists = false then 0
  else if env.open_ok = false then 0
  else if env.find_map = false then -1
  else if env.reuse_fd_ok = false then -1
  else 1

/-- The environment of pin_maps_in_bpf_object (loader source): whether
the two snprintf path constructions succeed, whether a map file already
exists at the computed pin path (access), and whether the unpin and pin
bpf operations succeed. -/
structure PinEnv where
  dir_path_ok : Bool
  file_path_ok : Bool
  map_file_exists : Bool
  unpin_ok : Bool
  pin_ok : Bool
deriving DecidableEq, Repr

/-- The observable outcome of pin_maps_in_bpf_object: the returned code
and whether the unpin and pin bpf operations were invoked. -/
structure PinResult where
  code : Nat
  unpin_called : Bool
  pin_called : Bool
deriving DecidableEq, Repr

/-- pin_maps_in_bpf_object from the loader source: on a snprintf failure
returns EXIT_FAIL_OPTION; if a map file already exists at the pin path
it first unpins (returning EXIT_FAIL_BPF if that fails); then pins all
maps of the object (returning EXIT_FAIL_BPF on failure), else returns
0. When no map file exists the unpin step is skipped entirely and the
function proceeds directly to pinning. -/
def pin_maps_in_bpf_object (env : PinEnv) : PinResult :=
  if env.dir_path_ok = false then ⟨EXIT_FAIL_OPTION, false, false⟩
  else if env.file_path_ok = false then ⟨EXIT_FAIL_OPTION, false, false⟩
  else if env.map_file_exists then
    if env.unpin_ok = false then ⟨EXIT_FAIL_BPF, true, false⟩
    else if env.pin_ok = false then ⟨EXIT_FAIL_BPF, true, true⟩
    else ⟨EXIT_OK, true, true⟩
  else
    if env.pin_ok = false then ⟨EXIT_FAIL_BPF, false, true⟩
    else ⟨EXIT_OK, false, true⟩

/-- The environment of load_bpf_and_xdp_attach_with_reuse (loader
source): whether program creation from the object file succeeds, the
environment of the reuse attempt, whether the attach succeeds, and the
environment of the pin step. -/
structure LoadEnv where
  create_ok : Bool
  reuse : ReuseEnv
  attach_ok : Bool
  pin : PinEnv
deriving DecidableEq, Repr

/-- The observable outcome of a successful
load_bpf_and_xdp_attach_with_reuse: whether the map was reused, and the
outcome of the pin step when it ran (none when it was skipped because
of reuse). -/
structure AttachOutcome where
  map_reused : Bool
  pin_result : Option PinResult
deriving DecidableEq, Repr

/-- load_bpf_and_xdp_attach_with_reuse from the loader source: create
the program (NULL on failure), attempt reuse (fatal NULL when
reuse_pinned_map is negative, reused when positive), attach (NULL on
failure), then pin the maps only when they were not reused; a pin
failure is only reported, the program handle is still returned. none
models the NULL return. -/
def load_bpf_and_xdp_attach_with_reuse (env : LoadEnv) : Option AttachOutcome :=
  if env.create_ok = false then none
  else
    let r := reuse_pinned_map env.reuse
    if r < 0 then none
    else if env.attach_ok = false then none
    else if 0 < r then some ⟨true, none⟩
    else some ⟨false, some (pin_maps_in_bpf_object env.pin)⟩

/-- The table was pinned by this run: the pin step ran and returned
success. -/
def pinnedByRun (o : AttachOutcome) : Bool :=
  match o.pin_result with
  | some pr => pr.code == EXIT_OK
  | none => false

/-- The all-zero statistics record (the C code zero-initializes its
stats_record variables). -/
def szero : stats_record := ⟨fun _ => ⟨0, ⟨0, 0⟩⟩⟩

/-- A benign collection environment: every array lookup succeeds with
zero counters. -/
def envZ : MapEnv := ⟨fun _ => some ⟨0, 0⟩, fun _ => some [], fun _ => ⟨0, 0⟩⟩

/-- A poll-loop state that has recorded generation identifier 1 for an
array-type table. -/
def st0 : LoopState := ⟨1, BPF_MAP_TYPE_ARRAY, szero⟩

/-- An iteration environment in which the re-opened table has a new
generation identifier (2), the baseline pass reads the clock at 0..4 ns
and the second pass one second later, with all lookups succeeding. -/
def env0 : IterEnv :=
  ⟨⟨2, BPF_MAP_TYPE_ARRAY⟩, envZ, fun k => k, envZ, fun k => 1000000000 + k⟩

/-- A collection environment where the lookup for key 0 fails and every
other key succeeds; the uninitialized stack variable of each
map_collect call happens to hold 77 packets and 88 bytes. -/
def envFail : MapEnv :=
  ⟨fun k => if k = 0 then none else some ⟨k, k⟩, fun _ => none, fun _ => ⟨77, 88⟩⟩

/-- A statistics record whose every entry previously held 3 packets and
3 bytes. -/
def sPrev : stats_record := ⟨fun _ => ⟨0, ⟨3, 3⟩⟩⟩

/-- A reuse environment where no pinned object exists (the no-reuse
path). -/
def reuseNoPin : ReuseEnv := ⟨true, false, true, true, true⟩

/-- A pin environment with no stale map file and a succeeding pin. -/
def pinFresh : PinEnv := ⟨true, true, false, true, true⟩

/-- A load environment where everything succeeds and nothing is
reused. -/
def envOK : LoadEnv := ⟨true, reuseNoPin, true, pinFresh⟩

/-- The outcome of envOK: not reused, pinned successfully. -/
def oOK : AttachOutcome := ⟨false, some ⟨EXIT_OK, false, true⟩⟩

/-- A pin environment with no stale map file whose pin operation
fails. -/
def pinFailEnv : PinEnv := ⟨true, true, false, true, false⟩

/-- A load environment where create, reuse-check and attach succeed but
the final pin step fails. -/
def envPinFail : LoadEnv := ⟨true, reuseNoPin, true, pinFailEnv⟩

/-- A map info whose entry count (7) does not match the expected
outcome cardinality (5) while the key and value sizes do match. -/
def infoBad : bpf_map_info := ⟨9, BPF_MAP_TYPE_ARRAY, 4, 16, 7⟩

/-- A sequence of open attempts that always succeed but always deliver
the mismatched table infoBad. -/
def infosX : Nat → bpf_map_info := fun _ => infoBad

/-- Claim C1, counterexample: in the iteration of the poll loop in which
the generation identifier of the re-opened table (2) differs from the
recorded one (1), the code does print a report: the iteration's output
contains printed statistics rows, refuting that no report is printed in
the iteration in which the generation change is detected. -/
theorem C1_counterexample :
    st0.map_id ≠ env0.newInfo.id ∧
      (loop_iteration st0 env0).2.any isRow = true := by
  constructor
  · decide
  · decide

/-- Claim C1 (amended): whenever the generation identifier of the newly
re-opened table differs from the previously recorded one, the loop
discards accumulated deltas and takes a fresh baseline snapshot, but it
does not skip the report: it falls through and prints a report for that
iteration whose previous-snapshot baseline is exactly the freshly taken
snapshot, so no stale delta spans the generation change. -/
theorem C1_amended_thm (st : LoopState) (env : IterEnv)
    (h : st.map_id ≠ env.newInfo.id) :
    loop_iteration st env =
      ({ map_id := env.newInfo.id, map_type := env.newInfo.type,
         record := stats_collect env.collectEnv env.collectClock env.newInfo.type
           (stats_collect env.reloadEnv env.reloadClock env.newInfo.type st.record) },
       stats_print
         (stats_collect env.collectEnv env.collectClock env.newInfo.type
           (stats_collect env.reloadEnv env.reloadClock env.newInfo.type st.record))
         (stats_collect env.reloadEnv env.reloadClock env.newInfo.type st.record)) := by
  simp [loop_iteration, h]

/-- Claim C1, witness for the amended theorem at the concrete
generation-change iteration st0, env0. -/
theorem C1_amended_witness :
    loop_iteration st0 env0 =
      ({ map_id := env0.newInfo.id, map_type := env0.newInfo.type,
         record := stats_collect env0.collectEnv env0.collectClock env0.newInfo.type
           (stats_collect env0.reloadEnv env0.reloadClock env0.newInfo.type st0.record) },
       stats_print
         (stats_collect env0.collectEnv env0.collectClock env0.newInfo.type
           (stats_collect env0.reloadEnv env0.reloadClock env0.newInfo.type st0.record))
         (stats_collect env0.reloadEnv env0.reloadClock env0.newInfo.type st0.record)) :=
  C1_amended_thm st0 env0 (by decide)

/-- Claim C2: evaluation of the code at the failing input. When the
lookup for key 0 fails during a collection pass over an array table,
the record for key 0 does not keep its previous values (3 packets,
3 bytes): it is overwritten with the indeterminate contents of the
uninitialized stack variable (here 77 packets, 88 bytes), while the
remaining keys are still collected normally (key 1 receives its looked
up value), so the pass is indeed not aborted. -/
theorem C2_code_behavior :
    ((stats_collect envFail (fun k => k) BPF_MAP_TYPE_ARRAY sPrev).stats
        ⟨0, by decide⟩).total = ⟨77, 88⟩ ∧
    ((stats_collect envFail (fun k => k) BPF_MAP_TYPE_ARRAY sPrev).stats
        ⟨1, by decide⟩).total = ⟨1, 1⟩ ∧
    (sPrev.stats ⟨0, by decide⟩).total = ⟨3, 3⟩ ∧
    (⟨77, 88⟩ : datarec) ≠ ⟨3, 3⟩ := by
  decide

/-- Claim C3, counterexample: an environment in which the pinned object
exists, opens, and the table name is found in the program's declared
table set, yet reuse_pinned_map still returns the fatal -1 because the
fd-swap (bpf_map__reuse_fd) fails — refuting that the fatal outcome
occurs only when the name cannot be found. -/
theorem C3_counterexample :
    reuse_pinned_map ⟨true, true, true, true, false⟩ = -1 ∧
      (⟨true, true, true, true, false⟩ : ReuseEnv).find_map = true := by
  decide

/-- Claim C3 (amended): reuse_pinned_map returns the fatal -1 exactly
when the pin-path construction fails, or when the pinned object exists
and opens but either the table name cannot be found in the program's
declared table set or the fd-swap reuse call fails; an absent pin path
or an open failure yields the non-fatal no-reuse outcome 0; and it
returns 1 exactly when every step succeeds. -/
theorem C3_amended_thm (env : ReuseEnv) :
    (reuse_pinned_map env = -1 ↔
      (env.path_ok = false ∨
        (env.path_ok = true ∧ env.pin_exists = true ∧ env.open_ok = true ∧
          (env.find_map = false ∨ env.reuse_fd_ok = false)))) ∧
    (reuse_pinned_map env = 0 ↔
      (env.path_ok = true ∧
        (env.pin_exists = false ∨
          (env.pin_exists = true ∧ env.open_ok = false)))) ∧
    (reuse_pinned_map env = 1 ↔
      (env.path_ok = true ∧ env.pin_exists = true ∧ env.open_ok = true ∧
        env.find_map = true ∧ env.reuse_fd_ok = true)) := by
  obtain ⟨p, e, o, f, r⟩ := env
  cases p <;> cases e <;> cases o <;> cases f <;> cases r <;> decide

/-- Claim C4: for every successful attach sequence (a non-null handle is
returned) in which the pin step does not itself fail, exactly one of
the two outcomes holds afterward: the table was pinned by this run, or
the table was reused from a prior pin — never both and never
neither. -/
theorem C4_thm (env : LoadEnv) (o : AttachOutcome)
    (h : load_bpf_and_xdp_attach_with_reuse env = some o)
    (hp : ∀ pr, o.pin_result = some pr → pr.code = EXIT_OK) :
    (pinnedByRun o = true ∧ o.map_reused = false) ∨
      (pinnedByRun o = false ∧ o.map_reused = true) := by
  simp only [load_bpf_and_xdp_attach_with_reuse] at h
  split_ifs at h with h1 h2 h3 h4
  · injection h with h5
    subst h5
    exact Or.inr ⟨rfl, rfl⟩
  · injection h with h5
    subst h5
    have hc := hp (pin_maps_in_bpf_object env.pin) rfl
    exact Or.inl ⟨by simp [pinnedByRun, hc], rfl⟩

/-- Claim C4, witness at the concrete all-succeeding, nothing-reused
load environment envOK, whose outcome is oOK. -/
theorem C4_witness :
    (pinnedByRun oOK = true ∧ oOK.map_reused = false) ∨
      (pinnedByRun oOK = false ∧ oOK.map_reused = true) :=
  C4_thm envOK oOK (by decide) (by
    intro pr hpr
    have h2 : some (PinResult.mk EXIT_OK false true) = some pr := hpr
    cases Option.some.inj h2
    rfl)

/-- Claim C5, counterexample: with a strictly increasing monotonic clock
(reading k at the k-th gettime call of the pass) and all lookups
succeeding, the snapshot produced by the collection pass carries
different timestamps on records 0 and 1 — so the snapshot is not
stamped with a single clock reading taken before the first lookup. -/
theorem C5_counterexample :
    ((stats_collect envZ (fun k => k) BPF_MAP_TYPE_ARRAY szero).stats
        ⟨1, by decide⟩).timestamp ≠
      ((stats_collect envZ (fun k => k) BPF_MAP_TYPE_ARRAY szero).stats
        ⟨0, by decide⟩).timestamp := by
  decide

/-- Claim C5 (amended): the collection pass takes one monotonic clock
reading per outcome key, immediately before that key's lookup: the
record of key k in the produced snapshot is timestamped with the k-th
reading of the pass, not with a single pass-wide reading. -/
theorem C5_amended_thm (env : MapEnv) (clock : Nat → Nat) (map_type : Nat)
    (s : stats_record) (k : Fin XDP_ACTION_MAX) :
    ((stats_collect env clock map_type s).stats k).timestamp = clock k.val := by
  show (map_collect map_type (env.lookupA k.val) (env.lookupP k.val)
      (env.uninit k.val) (clock k.val) (s.stats k)).1.timestamp = clock k.val
  simp only [map_collect]
  split_ifs <;> rfl

/-- Claim C6: if every attempt to re-open the pinned table fails, the
re-open retry loop of the poll loop is still retrying after any number
of steps — it never exits, so an open failure is never surfaced as a
terminal failure. -/
theorem C6_thm (attempts : Nat → Option bpf_map_info) (expect : bpf_map_info)
    (h : ∀ k, attempts k = none) :
    ∀ n, reopen_spins attempts expect n = true := by
  intro n
  induction n with
  | zero => rfl
  | succ n ih =>
    simp only [reopen_spins]
    rw [ih, h n]
    rfl

/-- Claim C6, witness: with every open attempt failing, the retry loop
is still spinning after three attempts. -/
theorem C6_witness : reopen_spins (fun _ => none) map_expect_shape 3 = true :=
  C6_thm (fun _ => none) map_expect_shape (fun _ => rfl) 3

/-- Claim C7: when the program is created and attached, the map was not
reused, and the pin step fails, load_bpf_and_xdp_attach_with_reuse
still returns success (a non-null handle): the failed pin outcome is
recorded (reported) but the attach is not undone. -/
theorem C7_thm (env : LoadEnv) (h1 : env.create_ok = true)
    (h2 : reuse_pinned_map env.reuse = 0) (h3 : env.attach_ok = true)
    (h4 : (pin_maps_in_bpf_object env.pin).code ≠ EXIT_OK) :
    load_bpf_and_xdp_attach_with_reuse env =
      some ⟨false, some (pin_maps_in_bpf_object env.pin)⟩ ∧
    (pin_maps_in_bpf_object env.pin).code ≠ EXIT_OK := by
  refine ⟨?_, h4⟩
  simp [load_bpf_and_xdp_attach_with_reuse, h1, h2, h3]

/-- Claim C7, witness at the concrete environment envPinFail where
everything succeeds except the final pin step. -/
theorem C7_witness :
    load_bpf_and_xdp_attach_with_reuse envPinFail =
      some ⟨false, some (pin_maps_in_bpf_object envPinFail.pin)⟩ ∧
    (pin_maps_in_bpf_object envPinFail.pin).code ≠ EXIT_OK :=
  C7_thm envPinFail rfl (by decide) rfl (by decide)

/-- The zero test the C code performs on the double returned by
calc_period succeeds exactly when the __u64 timestamp difference is
zero: the rational (and the double, whose smallest representable
positive result here is one nanosecond) vanishes only on a zero
difference. This justifies the integer form of the guard used in
statsPrintRows. -/
theorem calc_period_eq_zero_iff (r p : record) :
    calc_period r p = 0 ↔ u64sub r.timestamp p.timestamp = 0 := by
  simp only [calc_period]
  split_ifs with hpos
  · rw [div_eq_zero_iff]
    have h9 : ((NANOSEC_PER_SEC : ℚ)) ≠ 0 := by norm_num [NANOSEC_PER_SEC]
    simp [h9, Nat.cast_eq_zero]
  · simp
    omega

/-- Helper for claim C8: no row emitted by the per-action print loop
carries a zero period. -/
theorem statsPrintRows_no_zero (cur prev : stats_record)
    (l : List (Fin XDP_ACTION_MAX)) :
    (statsPrintRows cur prev l).any rowPeriodZero = false := by
  induction l with
  | nil => rfl
  | cons i rest ih =>
    simp only [statsPrintRows]
    split_ifs with hz
    · rfl
    · have hper : calc_period (cur.stats i) (prev.stats i) ≠ 0 :=
        fun hc => hz ((calc_period_eq_zero_iff _ _).mp hc)
      simp [rowPeriodZero, List.any_cons, ih, hper]

/-- Helper for claim C8: a row for a given action is emitted only when
that action's period is nonzero. -/
theorem statsPrintRows_mem_action (cur prev : stats_record) (a : Nat)
    (l : List (Fin XDP_ACTION_MAX))
    (h : (statsPrintRows cur prev l).any (rowForAction a) = true) :
    ∃ i : Fin XDP_ACTION_MAX, i.val = a ∧
      calc_period (cur.stats i) (prev.stats i) ≠ 0 := by
  induction l with
  | nil => simp [statsPrintRows, rowForAction] at h
  | cons i rest ih =>
    simp only [statsPrintRows] at h
    split_ifs at h with hz
    · simp at h
    · simp only [List.any_cons, Bool.or_eq_true] at h
      rcases h with hhead | htail
      · refine ⟨i, ?_, fun hc => hz ((calc_period_eq_zero_iff _ _).mp hc)⟩
        simpa [rowForAction] using hhead
      · exact ih htail

/-- Claim C8: for any pair of snapshots, stats_print never emits a row
whose period is zero (so it never performs the rate division with a
zero period), and for every action whose elapsed period is exactly
zero, printing is skipped for that sample (no row for that action is
emitted). -/
theorem C8_thm (cur prev : stats_record) :
    (stats_print cur prev).any rowPeriodZero = false ∧
    ∀ i : Fin XDP_ACTION_MAX, calc_period (cur.stats i) (prev.stats i) = 0 →
      (stats_print cur prev).any (rowForAction i.val) = false := by
  constructor
  · simp [stats_print, rowPeriodZero, statsPrintRows_no_zero]
  · intro i hz
    cases hA : (stats_print cur prev).any (rowForAction i.val) with
    | false => rfl
    | true =>
      exfalso
      have h2 : (statsPrintRows cur prev
          (List.finRange XDP_ACTION_MAX)).any (rowForAction i.val) = true := by
        simpa [stats_print, rowForAction] using hA
      obtain ⟨j, hj, hper⟩ := statsPrintRows_mem_action cur prev i.val _ h2
      have hji : j = i := Fin.ext hj
      rw [hji] at hper
      exact hper hz

/-- Claim C8, witness at the degenerate pair of identical snapshots
(every period is zero): no zero-period row is emitted and no row for
action 0 is printed. -/
theorem C8_witness :
    (stats_print szero szero).any rowPeriodZero = false ∧
      (stats_print szero szero).any (rowForAction 0) = false :=
  ⟨(C8_thm szero szero).1, (C8_thm szero szero).2 ⟨0, by decide⟩ rfl⟩

/-- Claim C9: when the two pin-path constructions succeed and no object
exists at the computed pin path, pin_maps_in_bpf_object never invokes
the unpin operation (the preliminary unpin step is a no-op, not an
error) and proceeds directly to publishing the tables: the pin
operation is invoked, and the returned code is determined by the pin
operation alone. -/
theorem C9_thm (env : PinEnv) (hd : env.dir_path_ok = true)
    (hf : env.file_path_ok = true) (hm : env.map_file_exists = false) :
    (pin_maps_in_bpf_object env).unpin_called = false ∧
    (pin_maps_in_bpf_object env).pin_called = true ∧
    (pin_maps_in_bpf_object env).code =
      (if env.pin_ok then EXIT_OK else EXIT_FAIL_BPF) := by
  cases hp : env.pin_ok <;> simp [pin_maps_in_bpf_object, hd, hf, hm, hp]

/-- Claim C9, witness at the concrete environment with no object at the
pin path and a succeeding pin. -/
theorem C9_witness :
    (pin_maps_in_bpf_object pinFresh).unpin_called = false ∧
    (pin_maps_in_bpf_object pinFresh).pin_called = true ∧
    (pin_maps_in_bpf_object pinFresh).code =
      (if pinFresh.pin_ok then EXIT_OK else EXIT_FAIL_BPF) :=
  C9_thm pinFresh rfl rfl rfl

/-- Helper for claims C6 and C10: the C retry condition of the re-open
loop holds for every non-success code. -/
theorem retry_cond_of_fail (err : Nat) (h : err ≠ EXIT_OK) :
    reopen_retry_cond err = true := by
  simp only [reopen_retry_cond, Bool.or_eq_true, beq_iff_eq, bne_iff_ne, ne_eq]
  exact Or.inr h

/-- Helper for claim C10: the error code delivered by
open_check_bpf_map_file on a successful open is exactly the shape-check
result. -/
theorem open_check_fst (i e : bpf_map_info) :
    (open_check_bpf_map_file (some i) e).1 = check_map_fd_info i e := by
  by_cases hc : check_map_fd_info i e = EXIT_OK
  · simp [open_check_bpf_map_file, hc]
  · simp [open_check_bpf_map_file, hc]

/-- Claim C10: in the poll loop's re-open step, every non-success
result of the open-and-validate call is treated as transient — in
particular, if every re-open attempt delivers a table whose shape fails
validation, the retry loop is still retrying after any number of steps
(a mid-loop shape mismatch is never fatal) — whereas the same
shape-mismatched table at reporter startup makes main return the error
(fail fast). -/
theorem C10_thm (infos : Nat → bpf_map_info) (expect : bpf_map_info)
    (h : ∀ k, check_map_fd_info (infos k) expect ≠ EXIT_OK) :
    (∀ n, reopen_spins (fun k => some (infos k)) expect n = true) ∧
    reporter_startup_fatal (some (infos 0)) expect = true := by
  constructor
  · intro n
    induction n with
    | zero => rfl
    | succ n ih =>
      simp only [reopen_spins, ih, Bool.true_and]
      rw [open_check_fst]
      exact retry_cond_of_fail _ (h n)
  · simp only [reporter_startup_fatal]
    rw [open_check_fst]
    exact bne_iff_ne.mpr (h 0)

/-- Claim C10, witness: every attempt delivers infoBad, whose entry
count (7) mismatches the expected shape; the mid-loop retry is still
spinning after four attempts while the startup check on the same table
is fatal. -/
theorem C10_witness :
    reopen_spins (fun k => some (infosX k)) map_expect_shape 4 = true ∧
      reporter_startup_fatal (some (infosX 0)) map_expect_shape = true :=
  ⟨(C10_thm infosX map_expect_shape (fun k => by simp only [infosX]; decide)).1 4,
   (C10_thm infosX map_expect_shape (fun k => by simp only [infosX]; decide)).2⟩
